import Mathlib

/-!
Shallow embedding of the population-statistics client and analyzer
(`src/api.py`, `src/analysis.py`) and proofs of the specification's claims.

Modelling conventions:
* Python integers are `Int`; Python floats are modelled by exact rationals
  `ℚ` (all concrete values appearing in the claims are exactly representable
  and the float operations on them round to the exact results).
* `None` for an optional float is `Option ℚ`'s `none`; the pandas `NaN`
  produced by taking the mean of an empty collection is also modelled as
  `none` (it is distinct from every float, in particular from `0`).
* A Python function that can raise is embedded as `Except`/`Option`; a
  function that cannot raise is total.
-/

namespace WorldPop

/-- Population record as analysed in `analysis.py` (the dataclass
`PopulationData` of `api.py`): one (country, year) observation with an
optional year-over-year growth rate.  At this layer populations are
integers, as in the data model (`population: integer ≥ 0` is an invariant
of the spec, not enforced by the type). -/
structure PopulationData where
  country : String
  year : Int
  population : Int
  growth_rate : Option ℚ := none
deriving DecidableEq, Repr, Inhabited

/-- Summary statistics returned by `analyze_population_trends`.
`average_growth_rate` is `Option ℚ`: `none` models the pandas `NaN`
that `Series.mean` returns when no value remains after dropping `NaN`s. -/
structure PopulationAnalysis where
  country : String
  start_year : Int
  end_year : Int
  average_growth_rate : Option ℚ
  max_population : Int
  min_population : Int
  total_change : Int
  percentage_change : ℚ
deriving DecidableEq, Repr

/-- Embeds `process_population_data` (`analysis.py`): keep exactly the
records with strictly positive population (the generator is forced by
`list(...)` at its single call site, so a plain filter is faithful). -/
def process_population_data (data : List PopulationData) : List PopulationData :=
  data.filter (fun entry => 0 < entry.population)

/-- Embeds `analyze_population_trends` (`analysis.py`).  Notes on the
pandas part of the source:
* the DataFrame is built from one dict per valid record, and every dict
  contains the key `growth_rate`, so the guard `'growth_rate' in df.columns`
  is always true and the `else 0` branch is unreachable;
* `df['growth_rate'].mean()` skips missing values (`None`/`NaN`) and yields
  `NaN` when none remain, modelled by `none`;
* `df['population'].max()/.min()` and `df['year'].min()/.max()` are the
  usual maxima/minima over the (non-empty) valid rows, embedded as folds. -/
def analyze_population_trends (data : List PopulationData) :
    Except String PopulationAnalysis :=
  match process_population_data data with
  | [] => .error "No valid population data available for analysis"
  | v :: vs =>
    let rates : List ℚ := (v :: vs).filterMap (fun d => d.growth_rate)
    let avg_growth : Option ℚ :=
      if rates.isEmpty then none else some (rates.sum / rates.length)
    let max_pop : Int := vs.foldl (fun a d => max a d.population) v.population
    let min_pop : Int := vs.foldl (fun a d => min a d.population) v.population
    let total_change : Int := max_pop - min_pop
    let percentage_change : ℚ :=
      if 0 < min_pop then ((total_change : ℚ) / (min_pop : ℚ)) * 100 else 0
    .ok
      { country := v.country
        start_year := vs.foldl (fun a d => min a d.year) v.year
        end_year := vs.foldl (fun a d => max a d.year) v.year
        average_growth_rate := avg_growth
        max_population := max_pop
        min_population := min_pop
        total_change := total_change
        percentage_change := percentage_change }

/-- Embeds the comparison `x.growth_rate >= bound` of the filter lambda in
`filter_by_growth_rate` (`analysis.py`).  In Python 3 comparing `None` with
a number raises `TypeError`, embedded as `Except.error ()`. -/
def pyGE (g : Option ℚ) (bound : ℚ) : Except Unit Bool :=
  match g with
  | none => .error ()
  | some v => .ok (bound ≤ v)

/-- Embeds the comparison `x.growth_rate <= bound` of the filter lambda,
raising (`Except.error ()`) when the growth rate is `None`. -/
def pyLE (g : Option ℚ) (bound : ℚ) : Except Unit Bool :=
  match g with
  | none => .error ()
  | some v => .ok (v ≤ bound)

/-- Embeds the lambda `growth_filter` of `filter_by_growth_rate`
(`analysis.py`), with Python's short-circuit `or`/`and`:
`(min_growth is None or x.growth_rate >= min_growth) and
 (max_growth is None or x.growth_rate <= max_growth)`. -/
def growth_filter (min_growth max_growth : Option ℚ) (x : PopulationData) :
    Except Unit Bool := do
  let c1 ← match min_growth with
    | none => pure true
    | some m => pyGE x.growth_rate m
  if c1 then
    match max_growth with
    | none => pure true
    | some m => pyLE x.growth_rate m
  else
    pure false

/-- Embeds `filter_by_growth_rate` (`analysis.py`):
`list(filter(growth_filter, data))`, evaluating the predicate on the
elements left to right; the first `TypeError` aborts the whole call. -/
def filter_by_growth_rate (data : List PopulationData)
    (min_growth max_growth : Option ℚ) : Except Unit (List PopulationData) :=
  match data with
  | [] => .ok []
  | x :: xs => do
    let b ← growth_filter min_growth max_growth x
    let rest ← filter_by_growth_rate xs min_growth max_growth
    pure (if b then x :: rest else rest)

/-- Satisfaction of an optional lower bound by an optional growth rate: an
absent bound accepts everything, a present bound only a set growth rate
that is at least the bound. -/
def lowerBoundOK (min_growth : Option ℚ) (g : Option ℚ) : Bool :=
  match min_growth, g with
  | none, _ => true
  | some m, some v => m ≤ v
  | some _, none => false

/-- Satisfaction of an optional upper bound by an optional growth rate. -/
def upperBoundOK (max_growth : Option ℚ) (g : Option ℚ) : Bool :=
  match max_growth, g with
  | none, _ => true
  | some m, some v => v ≤ m
  | some _, none => false

/-- Per-record membership test used to describe the output of
`filter_by_growth_rate` when no comparison raises: an absent bound is
satisfied by every record, a present bound only by a record whose (set)
growth rate is within it. -/
def satisfiesBounds (min_growth max_growth : Option ℚ) (r : PopulationData) :
    Bool :=
  lowerBoundOK min_growth r.growth_rate && upperBoundOK max_growth r.growth_rate

/-- JSON values as returned by the statistics API.  Numbers are modelled as
integers (the population indicator is integral and no claim involves a
fractional response value); booleans do not occur in the endpoint's schema
and play no role in any claim, so they are omitted. -/
inductive Json where
  | null : Json
  | num : Int → Json
  | str : String → Json
  | arr : List Json → Json
  | obj : List (String × Json) → Json

/-- Python truthiness of a JSON value: `None`, `0`, and empty strings,
lists and dicts are falsy. -/
def Json.truthy : Json → Bool
  | .null => false
  | .num n => n != 0
  | .str s => s ≠ ""
  | .arr l => !l.isEmpty
  | .obj l => !l.isEmpty

/-- Python `len(x)`: defined for strings, lists and dicts, a `TypeError`
(`none`) otherwise. -/
def Json.pyLen : Json → Option Nat
  | .str s => some s.length
  | .arr l => some l.length
  | .obj l => some l.length
  | _ => none

/-- Python `x[i]` for a non-negative integer index: list indexing and string
indexing succeed in range, a dict raises `KeyError` (JSON object keys are
strings, never integers), everything else a `TypeError`. -/
def Json.pyIndex : Json → Nat → Option Json
  | .arr l, i => l.get? i
  | .str s, i => (s.toList.get? i).map (fun c => Json.str (String.mk [c]))
  | _, _ => none

/-- Python `x['k']`: dict lookup, `KeyError`/`TypeError` (`none`) when the
key is absent or `x` is not a dict. -/
def Json.pyField : Json → String → Option Json
  | .obj l, k => (l.find? (fun p => p.1 = k)).map (fun p => p.2)
  | _, _ => none

/-- Population record as constructed by the fetch client
(`PopulationData` of `api.py`, seen at the API boundary).  Python is
dynamically typed and `get_country_population` stores the raw JSON `value`
field in `population`, so here the field is a JSON value; the "no data"
sentinel is `Json.num 0`. -/
structure ApiPopulationData where
  country : String
  year : Int
  population : Json
  growth_rate : Option ℚ := none

/-- Embeds the body of the `try` block of `get_country_population`
(`api.py`) after a 200 response: the check
`if data and len(data) > 1 and data[1]:` followed by
`data[1][0]['value']`.  `none` covers both a false check (fall through to
the sentinel return) and an exception inside the block (caught, same
sentinel return): either way the caller returns the sentinel. -/
def tryExtractValue (data : Json) : Option Json :=
  if data.truthy then
    match data.pyLen with
    | none => none
    | some n =>
      if 1 < n then
        match data.pyIndex 1 with
        | none => none
        | some d1 =>
          if d1.truthy then
            match d1.pyIndex 0 with
            | none => none
            | some d10 => d10.pyField "value"
          else none
      else none
  else none

/-- Embeds `get_country_population` (`api.py`).  The HTTP interaction is
abstracted by its outcome `resp`: `none` when the request raised (network
failure — the blanket `except` catches it), `some (status, body)` for a
received response.  The function is total: it never raises, and returns
the sentinel record (`population = 0`) whenever the status is not 200 or
the body does not pass `tryExtractValue`. -/
def get_country_population (country_code : String) (year : Int)
    (resp : Option (Nat × Json)) : ApiPopulationData :=
  match resp with
  | none => { country := country_code, year := year, population := Json.num 0 }
  | some (status, data) =>
    if status = 200 then
      match tryExtractValue data with
      | some v => { country := country_code, year := year, population := v }
      | none => { country := country_code, year := year, population := Json.num 0 }
    else { country := country_code, year := year, population := Json.num 0 }

/-- Python `data.population > 0` for an API-layer record: defined when the
population is a number, a `TypeError` (`none`) otherwise (`None`, strings,
lists and dicts do not compare with integers in Python 3). -/
def pyPopPositive (p : Json) : Option Bool :=
  match p with
  | .num n => some (0 < n)
  | _ => none

/-- Embeds the generator loop of `get_country_population_range` (`api.py`):
records whose population compares `> 0` are yielded, others are skipped;
if the comparison raises (`TypeError`), the generator propagates the
exception and yields nothing further. -/
def rangeYields : List ApiPopulationData → List ApiPopulationData
  | [] => []
  | d :: rest =>
    match pyPopPositive d.population with
    | some true => d :: rangeYields rest
    | some false => rangeYields rest
    | none => []

/-- Inclusive year range `[start_year .. end_year]` iterated by
`get_country_population_range` (`range(start_year, end_year + 1)`). -/
def yearsRange (start_year end_year : Int) : List Int :=
  (List.range (end_year + 1 - start_year).toNat).map (fun i => start_year + i)

/-- Embeds `get_country_population_range` (`api.py`).  `resp` gives each
year's HTTP outcome; `asyncio.as_completed` delivers the per-year tasks in
a non-deterministic completion order, modelled by the scheduler's
reordering `sched` applied to the year list (for a real scheduler
`sched ys` is a permutation of `ys`; the properties proved below hold for
every reordering, so no permutation assumption is built in). -/
def get_country_population_range (country_code : String)
    (start_year end_year : Int) (resp : Int → Option (Nat × Json))
    (sched : List Int → List Int) : List ApiPopulationData :=
  rangeYields ((sched (yearsRange start_year end_year)).map
    (fun y => get_country_population country_code y (resp y)))

/-- Shape of a successful response as the specification describes it,
word for word: a two-element JSON array (`l.length = 2`) whose element 1
is a non-empty list of observation objects each carrying a `value` field.
This definition follows the spec's words, to be compared with what the
code accepts. -/
def claimExpectedShape (resp : Option (Nat × Json)) : Prop :=
  ∃ l obs, resp = some (200, Json.arr l) ∧ l.length = 2 ∧
    l.get? 1 = some (Json.arr obs) ∧ obs ≠ [] ∧
    ∀ o ∈ obs, ∃ fields, o = Json.obj fields ∧
      ((fields.find? (fun p => p.1 = "value")).isSome = true)

/-- Shape of a response the code actually parses: a 200 status with a JSON
array of at least two elements whose element at index 1 is a non-empty
list whose first element is an object carrying a `value` field. -/
def expectedShape (resp : Option (Nat × Json)) : Prop :=
  ∃ l obs fields, resp = some (200, Json.arr l) ∧ 2 ≤ l.length ∧
    l.get? 1 = some (Json.arr obs) ∧
    obs.get? 0 = some (Json.obj fields) ∧
    ((fields.find? (fun p => p.1 = "value")).isSome = true)

/-- Embeds the annotation loop of `calculate_growth_rate` (`api.py`,
`for i in range(1, len(population_data)): ...`) as a pure pass over the
collected list.  The loop only ever writes `growth_rate` and only ever
reads `population`, so reading the populations from the original list is
equivalent to the in-place mutation of the source.  The record at index 0
is returned untouched; at index `i ≥ 1` the growth rate is set to
`((pop[i] - pop[i-1]) / pop[i-1]) * 100` when `pop[i-1] > 0` and the
record is left untouched otherwise. -/
def calculate_growth_rate (l : List PopulationData) : List PopulationData :=
  (List.range l.length).map (fun i =>
    let r := l.getD i default
    if i = 0 then r
    else
      let prev : Int := (l.getD (i - 1) default).population
      if 0 < prev then
        { r with
          growth_rate := some ((((r.population : ℚ) - (prev : ℚ)) / (prev : ℚ)) * 100) }
      else r)

/-- State of the rate limiter (`PopulationAPIClient.__init__`):
`last_request_time` (the window start) and `request_count` (admissions in
the current window).  Wall-clock instants and durations are rationals in
seconds. -/
structure LimiterState where
  last_request_time : ℚ
  request_count : ℕ
deriving DecidableEq, Repr

/-- Embeds one call of `_rate_limit` (`api.py`) as a function of the call
instant `now`: returns the slept duration and the state after the call.
The source, in order: if `now - last ≥ time_window`, reset the window;
else if `request_count ≥ rate_limit`, sleep the remaining window time and
reset (with `last_request_time = datetime.now()` taken after the sleep,
i.e. `now + slept` under cooperative scheduling); finally increment the
count. -/
def rateLimitStep (rate_limit : ℕ) (time_window : ℚ) (now : ℚ)
    (st : LimiterState) : ℚ × LimiterState :=
  let time_diff := now - st.last_request_time
  if time_window ≤ time_diff then
    (0, { last_request_time := now, request_count := 1 })
  else if rate_limit ≤ st.request_count then
    (time_window - time_diff,
     { last_request_time := now + (time_window - time_diff),
       request_count := 1 })
  else
    (0, { last_request_time := st.last_request_time,
          request_count := st.request_count + 1 })

/-- Cooperative back-to-back issue of `n` admission checks starting at
instant `t`: each call runs `_rate_limit`, and the next call starts when
the previous one returns, so time advances only by the slept durations
(HTTP time is taken as negligible, as in the spec's scenario).  Returns
the list of slept durations, one per call. -/
def simulate (rate_limit : ℕ) (time_window : ℚ) :
    ℕ → ℚ → LimiterState → List ℚ
  | 0, _, _ => []
  | n + 1, t, st =>
    let step := rateLimitStep rate_limit time_window t st
    step.1 :: simulate rate_limit time_window n (t + step.1) step.2

/-- Column list of the DataFrame built by `export_to_csv` (`analysis.py`):
`pd.DataFrame` of an empty list of dicts has no columns at all, otherwise
the columns are the dict keys in insertion order. -/
def csvHeaderColumns (data : List PopulationData) : List String :=
  if data.isEmpty then []
  else ["country", "year", "population", "growth_rate"]

/-- Rendering of one record as a CSV row, `country, year, population,
growth_rate` (an unset growth rate is written as the empty field, as
`to_csv` writes `NaN`/`None`; numeric formatting is abstracted by
`toString`). -/
def csvRow (r : PopulationData) : String :=
  String.intercalate ","
    [r.country, toString r.year, toString r.population,
     match r.growth_rate with
     | none => ""
     | some g => toString g]

/-- Embeds `export_to_csv` (`analysis.py`) as the list of lines written with
`index=False`: the header line (the comma-joined column list — a single
blank line when the DataFrame has no columns) followed by one row per
record. -/
def export_to_csv (data : List PopulationData) : List String :=
  String.intercalate "," (csvHeaderColumns data) :: data.map csvRow

/-! Helper lemmas. -/

lemma growth_filter_of_isSome (min_growth max_growth : Option ℚ)
    (x : PopulationData) (hx : x.growth_rate.isSome = true) :
    growth_filter min_growth max_growth x =
      .ok (satisfiesBounds min_growth max_growth x) := by
  obtain ⟨g, hg⟩ := Option.isSome_iff_exists.mp hx
  rcases min_growth with _ | m <;> rcases max_growth with _ | M <;>
    simp only [growth_filter, pyGE, pyLE, satisfiesBounds, lowerBoundOK,
      upperBoundOK, hg, Bind.bind, Except.bind, pure, Except.pure,
      Bool.true_and, Bool.and_true] <;>
    split_ifs with h <;> simp_all

lemma growth_filter_none_none (x : PopulationData) :
    growth_filter none none x = .ok true := by
  simp only [growth_filter, Bind.bind, Except.bind, pure, Except.pure,
    if_pos trivial]

lemma satisfiesBounds_none_none (x : PopulationData) :
    satisfiesBounds none none x = true := by
  simp [satisfiesBounds, lowerBoundOK, upperBoundOK]

lemma tryExtractValue_str (s : String) :
    tryExtractValue (Json.str s) = none := by
  unfold tryExtractValue
  simp only [Json.truthy, Json.pyLen, Json.pyIndex, Json.pyField]
  split
  · split
    · rcases s.toList.get? 1 with _ | c
      · rfl
      · simp only [Option.map_some']
        split
        · rfl
        · rfl
    · rfl
  · rfl

lemma tryExtractValue_shape (data v : Json)
    (h : tryExtractValue data = some v) :
    ∃ l obs fields, data = Json.arr l ∧ 2 ≤ l.length ∧
      l.get? 1 = some (Json.arr obs) ∧
      obs.get? 0 = some (Json.obj fields) ∧
      ((fields.find? (fun p => p.1 = "value")).isSome = true) := by
  cases data with
  | null => simp [tryExtractValue, Json.truthy] at h
  | num n => simp [tryExtractValue, Json.pyLen] at h
  | str s => rw [tryExtractValue_str] at h; cases h
  | obj o => simp [tryExtractValue, Json.pyLen, Json.pyIndex] at h
  | arr l =>
    rw [tryExtractValue] at h
    split at h
    case isFalse => cases h
    case isTrue htr =>
      simp only [Json.pyLen] at h
      split at h
      case isFalse => cases h
      case isTrue hlen =>
        simp only [Json.pyIndex] at h
        rcases hg1 : l.get? 1 with _ | d1
        · rw [hg1] at h; cases h
        · rw [hg1] at h
          simp only at h
          split at h
          case isFalse => cases h
          case isTrue htr1 =>
            cases d1 with
            | null => cases h
            | num m => cases h
            | str t =>
              simp only [Json.pyIndex] at h
              rcases hg : t.toList.get? 0 with _ | c
              · rw [hg] at h; cases h
              · rw [hg] at h
                simp only [Option.map_some', Json.pyField] at h
                cases h
            | obj o => cases h
            | arr obs =>
              simp only [Json.pyIndex] at h
              rcases hg0 : obs.get? 0 with _ | d10
              · rw [hg0] at h; cases h
              · rw [hg0] at h
                simp only at h
                cases d10 with
                | null => cases h
                | num m => cases h
                | str t => cases h
                | arr l2 => cases h
                | obj fields =>
                  simp only [Json.pyField] at h
                  obtain ⟨p, hp, hpv⟩ := Option.map_eq_some'.mp h
                  exact ⟨l, obs, fields, rfl, by omega, hg1, hg0,
                    by rw [hp]; rfl⟩

lemma rangeYields_positive (ds : List ApiPopulationData) :
    ∀ r ∈ rangeYields ds, ∃ n : Int, r.population = Json.num n ∧ 0 < n := by
  induction ds with
  | nil => intro r hr; simp [rangeYields] at hr
  | cons d rest ih =>
    intro r hr
    rw [rangeYields] at hr
    cases hp : pyPopPositive d.population with
    | none => rw [hp] at hr; simp at hr
    | some b =>
      rw [hp] at hr
      cases b with
      | false => exact ih r hr
      | true =>
        rcases List.mem_cons.mp hr with rfl | hr2
        · rcases hd : r.population with _ | n | s | l | o <;>
            rw [hd] at hp <;> simp [pyPopPositive] at hp
          exact ⟨n, rfl, hp⟩
        · exact ih r hr2

lemma foldl_max_le {α : Type} [LinearOrder α] (l : List α) (a : α) :
    a ≤ l.foldl max a ∧ ∀ x ∈ l, x ≤ l.foldl max a := by
  induction l generalizing a with
  | nil => exact ⟨le_refl a, by simp⟩
  | cons b t ih =>
    simp only [List.foldl_cons]
    refine ⟨le_trans (le_max_left a b) (ih (max a b)).1, ?_⟩
    intro x hx
    rcases List.mem_cons.mp hx with rfl | hx
    · exact le_trans (le_max_right a x) (ih (max a x)).1
    · exact (ih (max a b)).2 x hx

lemma foldl_max_mem {α : Type} [LinearOrder α] (l : List α) (a : α) :
    l.foldl max a = a ∨ l.foldl max a ∈ l := by
  induction l generalizing a with
  | nil => exact Or.inl rfl
  | cons b t ih =>
    simp only [List.foldl_cons]
    rcases ih (max a b) with h | h
    · rcases max_choice a b with hab | hab
      · exact Or.inl (h.trans hab)
      · exact Or.inr (by rw [h, hab]; exact List.mem_cons_self b t)
    · exact Or.inr (List.mem_cons_of_mem b h)

lemma foldl_min_le {α : Type} [LinearOrder α] (l : List α) (a : α) :
    l.foldl min a ≤ a ∧ ∀ x ∈ l, l.foldl min a ≤ x := by
  induction l generalizing a with
  | nil => exact ⟨le_refl a, by simp⟩
  | cons b t ih =>
    simp only [List.foldl_cons]
    refine ⟨le_trans (ih (min a b)).1 (min_le_left a b), ?_⟩
    intro x hx
    rcases List.mem_cons.mp hx with rfl | hx
    · exact le_trans (ih (min a x)).1 (min_le_right a x)
    · exact (ih (min a b)).2 x hx

lemma foldl_min_mem {α : Type} [LinearOrder α] (l : List α) (a : α) :
    l.foldl min a = a ∨ l.foldl min a ∈ l := by
  induction l generalizing a with
  | nil => exact Or.inl rfl
  | cons b t ih =>
    simp only [List.foldl_cons]
    rcases ih (min a b) with h | h
    · rcases min_choice a b with hab | hab
      · exact Or.inl (h.trans hab)
      · exact Or.inr (by rw [h, hab]; exact List.mem_cons_self b t)
    · exact Or.inr (List.mem_cons_of_mem b h)

lemma calculate_growth_rate_length (l : List PopulationData) :
    (calculate_growth_rate l).length = l.length := by
  simp [calculate_growth_rate]

lemma calculate_growth_rate_getD (l : List PopulationData) (i : ℕ)
    (hi : i < l.length) :
    (calculate_growth_rate l).getD i default =
      (if i = 0 then l.getD i default
       else if 0 < (l.getD (i - 1) default).population then
         { l.getD i default with
           growth_rate := some ((((l.getD i default).population : ℚ) -
               ((l.getD (i - 1) default).population : ℚ)) /
             ((l.getD (i - 1) default).population : ℚ) * 100) }
       else l.getD i default) := by
  have hlen : i < (calculate_growth_rate l).length := by
    rw [calculate_growth_rate_length]; exact hi
  rw [List.getD_eq_getElem _ _ hlen]
  simp [calculate_growth_rate]

/-! Theorems for the claims. -/

/-- C1.  On a list of records sorted ascending by year, with growth rates
initially unset (as the fetch client creates them) and non-negative
populations (the data-model invariant), the annotation pass sets
`growth_rate = (pop[i] - pop[i-1]) / pop[i-1] * 100` at every index
`i ≥ 1` whose predecessor population is positive, leaves it unset when the
predecessor population is `0`, and never sets a growth rate at index `0`;
for populations `[100, 110, 99]` the resulting rates are
`[unset, 10.0, -10.0]`. -/
theorem claim1_growth_pass :
    (∀ l : List PopulationData,
      List.Pairwise (fun a b => a.year ≤ b.year) l →
      (∀ r ∈ l, r.growth_rate = none) →
      (∀ r ∈ l, 0 ≤ r.population) →
      (∀ i, 1 ≤ i → i < l.length →
        (0 < (l.getD (i - 1) default).population →
          ((calculate_growth_rate l).getD i default).growth_rate =
            some ((((l.getD i default).population : ℚ) -
                ((l.getD (i - 1) default).population : ℚ)) /
              ((l.getD (i - 1) default).population : ℚ) * 100)) ∧
        ((l.getD (i - 1) default).population = 0 →
          ((calculate_growth_rate l).getD i default).growth_rate = none)) ∧
      ((calculate_growth_rate l).getD 0 default).growth_rate = none) ∧
    (calculate_growth_rate
        [⟨"AAA", 2000, 100, none⟩, ⟨"AAA", 2001, 110, none⟩,
         ⟨"AAA", 2002, 99, none⟩]).map (fun r => r.growth_rate) =
      [none, some 10, some (-10)] := by
  constructor
  · intro l _hsort hnone _hpos
    have hmemD : ∀ j, j < l.length → l.getD j default ∈ l := by
      intro j hj
      rw [List.getD_eq_getElem _ _ hj]
      exact List.getElem_mem _
    constructor
    · intro i h1 hi
      have hchar := calculate_growth_rate_getD l i hi
      rw [if_neg (by omega)] at hchar
      constructor
      · intro hprev
        rw [hchar, if_pos hprev]
      · intro hprev0
        rw [hchar, if_neg (by omega)]
        exact hnone _ (hmemD i hi)
    · cases l with
      | nil => rfl
      | cons x xs =>
        have hchar := calculate_growth_rate_getD (x :: xs) 0 (by simp)
        rw [hchar, if_pos rfl]
        exact hnone _ (hmemD 0 (by simp))
  · norm_num [calculate_growth_rate, List.range_succ]

/-- Witness for C1 at the concrete three-record list: the record at index
`1` receives the growth rate computed from the populations at indices `0`
and `1`. -/
theorem claim1_growth_pass_witness :
    ((calculate_growth_rate
        [⟨"AAA", 2000, 100, none⟩, ⟨"AAA", 2001, 110, none⟩,
         ⟨"AAA", 2002, 99, none⟩]).getD 1 default).growth_rate =
      some (((((([⟨"AAA", 2000, 100, none⟩, ⟨"AAA", 2001, 110, none⟩,
              ⟨"AAA", 2002, 99, none⟩] : List PopulationData).getD 1
              default).population : ℚ) -
          ((([⟨"AAA", 2000, 100, none⟩, ⟨"AAA", 2001, 110, none⟩,
              ⟨"AAA", 2002, 99, none⟩] : List PopulationData).getD 0
              default).population : ℚ)) /
        ((([⟨"AAA", 2000, 100, none⟩, ⟨"AAA", 2001, 110, none⟩,
            ⟨"AAA", 2002, 99, none⟩] : List PopulationData).getD 0
            default).population : ℚ)) * 100) :=
  ((claim1_growth_pass.1
      [⟨"AAA", 2000, 100, none⟩, ⟨"AAA", 2001, 110, none⟩,
       ⟨"AAA", 2002, 99, none⟩]
      (by decide) (by decide) (by decide)).1 1 (by decide) (by decide)).1
    (by decide)

/-- C10.  The annotation pass writes only the `growth_rate` field: the
returned list has the same length, and at every position the `country`,
`year` and `population` fields are those of the input record (out-of-range
positions compare the common fallback, so no bound hypothesis is
needed). -/
theorem claim10_frame :
    ∀ (l : List PopulationData) (i : ℕ),
      (calculate_growth_rate l).length = l.length ∧
      ((calculate_growth_rate l).getD i default).country =
        (l.getD i default).country ∧
      ((calculate_growth_rate l).getD i default).year =
        (l.getD i default).year ∧
      ((calculate_growth_rate l).getD i default).population =
        (l.getD i default).population := by
  intro l i
  refine ⟨calculate_growth_rate_length l, ?_⟩
  by_cases hi : i < l.length
  · rw [calculate_growth_rate_getD l i hi]
    split_ifs <;> simp
  · rw [List.getD_eq_default _ _ (le_of_not_lt hi),
      List.getD_eq_default _ _
        (by rw [calculate_growth_rate_length]; omega)]
    exact ⟨rfl, rfl, rfl⟩

/-- C2.  On any input with at least one positive-population record the
analyzer succeeds; whenever it succeeds, `max_population` and
`min_population` are the maximum and minimum population over the records
with positive population, `total_change` is their difference and
`percentage_change = total_change / min_population * 100` (the `0` guard
for `min_population = 0` is never taken, the minimum over positive
populations being positive); on `[(2000,100), (2001,110), (2002,99)]` the
result is `max = 110`, `min = 99`, `total_change = 11` and
`percentage_change = 100/9 ≈ 11.11`. -/
theorem claim2_analyzer_stats :
    (∀ data : List PopulationData,
      (∃ r ∈ data, 0 < r.population) →
      (analyze_population_trends data).isOk = true) ∧
    (∀ (data : List PopulationData) (a : PopulationAnalysis),
      analyze_population_trends data = .ok a →
      a.max_population ∈
        (process_population_data data).map (fun r => r.population) ∧
      (∀ r ∈ process_population_data data,
        r.population ≤ a.max_population) ∧
      a.min_population ∈
        (process_population_data data).map (fun r => r.population) ∧
      (∀ r ∈ process_population_data data,
        a.min_population ≤ r.population) ∧
      a.total_change = a.max_population - a.min_population ∧
      a.percentage_change =
        ((a.total_change : ℚ) / (a.min_population : ℚ)) * 100) ∧
    (analyze_population_trends
        [⟨"AAA", 2000, 100, none⟩, ⟨"AAA", 2001, 110, none⟩,
         ⟨"AAA", 2002, 99, none⟩] =
      .ok ⟨"AAA", 2000, 2002, none, 110, 99, 11, 100/9⟩ ∧
      |(100 : ℚ)/9 - 11.11| < 1/100) := by
  refine ⟨?_, ?_, ?_, ?_⟩
  · intro data ⟨r, hr, hpos⟩
    have hval : r ∈ process_population_data data :=
      List.mem_filter.mpr ⟨hr, by simpa using hpos⟩
    cases hpd : process_population_data data with
    | nil => rw [hpd] at hval; cases hval
    | cons v vs =>
      simp [analyze_population_trends, hpd, Except.isOk, Except.toBool]
  · intro data a ha
    cases hpd : process_population_data data with
    | nil =>
      rw [analyze_population_trends, hpd] at ha
      cases ha
    | cons v vs =>
      have hposall : ∀ x ∈ v :: vs, 0 < x.population := by
        rw [← hpd]
        intro x hx
        simpa using (List.mem_filter.mp hx).2
      rw [analyze_population_trends, hpd] at ha
      injection ha with ha
      subst ha
      simp only [hpd]
      have hmax := foldl_max_le (vs.map (fun d => d.population)) v.population
      have hmaxmem := foldl_max_mem (vs.map (fun d => d.population)) v.population
      have hmin := foldl_min_le (vs.map (fun d => d.population)) v.population
      have hminmem := foldl_min_mem (vs.map (fun d => d.population)) v.population
      rw [List.foldl_map] at hmax hmaxmem hmin hminmem
      have hminpos :
          0 < vs.foldl (fun acc d => min acc d.population) v.population := by
        rcases hminmem with h | h
        · rw [h]; exact hposall v (List.mem_cons_self v vs)
        · obtain ⟨x, hx, he⟩ := List.mem_map.mp h
          rw [← he]
          exact hposall x (List.mem_cons_of_mem v hx)
      refine ⟨?_, ?_, ?_, ?_, trivial, ?_⟩
      · rcases hmaxmem with h | h
        · rw [h]
          exact List.mem_map_of_mem _ (List.mem_cons_self v vs)
        · obtain ⟨x, hx, he⟩ := List.mem_map.mp h
          rw [← he]
          exact List.mem_map_of_mem _ (List.mem_cons_of_mem v hx)
      · intro rr hrr
        rcases List.mem_cons.mp hrr with rfl | hx
        · exact hmax.1
        · exact hmax.2 _ (List.mem_map_of_mem _ hx)
      · rcases hminmem with h | h
        · rw [h]
          exact List.mem_map_of_mem _ (List.mem_cons_self v vs)
        · obtain ⟨x, hx, he⟩ := List.mem_map.mp h
          rw [← he]
          exact List.mem_map_of_mem _ (List.mem_cons_of_mem v hx)
      · intro rr hrr
        rcases List.mem_cons.mp hrr with rfl | hx
        · exact hmin.1
        · exact hmin.2 _ (List.mem_map_of_mem _ hx)
      · show (if 0 < vs.foldl (fun acc d => min acc d.population) v.population
            then _ else _) = _
        rw [if_pos hminpos]
  · norm_num [analyze_population_trends, process_population_data]
  · rw [abs_of_nonneg (by norm_num : (0:ℚ) ≤ 100/9 - 11.11)]
    norm_num

/-- Witness for C2 at the concrete three-record input: the analyzer
succeeds, and its reported maximum population `110` is the population of
one of the valid records. -/
theorem claim2_analyzer_stats_witness :
    (analyze_population_trends
        [⟨"AAA", 2000, 100, none⟩, ⟨"AAA", 2001, 110, none⟩,
         ⟨"AAA", 2002, 99, none⟩]).isOk = true ∧
    (110 : ℤ) ∈
      (process_population_data
        [⟨"AAA", 2000, 100, none⟩, ⟨"AAA", 2001, 110, none⟩,
         ⟨"AAA", 2002, 99, none⟩]).map (fun r => r.population) :=
  ⟨claim2_analyzer_stats.1 _ ⟨⟨"AAA", 2000, 100, none⟩, by decide, by decide⟩,
   (claim2_analyzer_stats.2.1 _ ⟨"AAA", 2000, 2002, none, 110, 99, 11, 100/9⟩
      (by norm_num [analyze_population_trends, process_population_data])).1⟩

/-- C3.  The analyzer fails with the "no data" `ValueError` exactly when
nothing remains after discarding records with non-positive population;
otherwise it succeeds.  In particular it fails on the empty input and on
an all-zero-population input. -/
theorem claim3_no_data_error :
    (∀ data : List PopulationData,
      ((analyze_population_trends data =
          .error "No valid population data available for analysis") ↔
        process_population_data data = []) ∧
      ((∃ a, analyze_population_trends data = .ok a) ↔
        process_population_data data ≠ [])) ∧
    analyze_population_trends [] =
      .error "No valid population data available for analysis" ∧
    analyze_population_trends
        [⟨"AAA", 2000, 0, none⟩, ⟨"BBB", 2001, 0, none⟩] =
      .error "No valid population data available for analysis" := by
  refine ⟨fun data => ?_, ?_, ?_⟩
  · cases h : process_population_data data with
    | nil => simp [analyze_population_trends, h]
    | cons v vs => simp [analyze_population_trends, h]
  · simp [analyze_population_trends, process_population_data]
  · simp [analyze_population_trends, process_population_data]

/-- C4.  Evaluation of the analyzer at the failing input: a single valid
record with no growth rate set.  The DataFrame built by the source always
contains the `growth_rate` column, so the `else 0` fallback is dead code
and `Series.mean` over zero set growth rates yields `NaN` (modelled
`none`), not the `0` the claim states. -/
theorem claim4_average_growth_nan_at_failing_input :
    analyze_population_trends [⟨"AAA", 2000, 100, none⟩] =
      .ok ⟨"AAA", 2000, 2000, none, 100, 100, 0, 0⟩ ∧
    (analyze_population_trends [⟨"AAA", 2000, 100, none⟩]).map
        (fun a => a.average_growth_rate) ≠ .ok (some 0) := by
  constructor
  · simp [analyze_population_trends, process_population_data]
  · simp [analyze_population_trends, process_population_data, Except.map]

/-- C5, counterexample.  With `min_growth = 5` and a record whose growth
rate is unset, the filter lambda evaluates `None >= 5`, a `TypeError`: the
call raises instead of returning a list that excludes the record, so the
claimed output `.ok []` is not produced. -/
theorem claim5_filter_counterexample :
    filter_by_growth_rate [⟨"AAA", 2001, 110, none⟩] (some 5) none =
      .error () ∧
    (Except.error () : Except Unit (List PopulationData)) ≠ .ok [] := by
  exact ⟨rfl, by simp⟩

/-- C5, amended.  When no bound is specified, or every record has its
growth rate set, `filter_by_growth_rate` returns the sublist satisfying
each present bound; a record with unset growth rate is only tolerated when
no bound is given (it is then included), otherwise the call raises
`TypeError` rather than excluding the record. -/
theorem claim5_filter_amended :
    ∀ (data : List PopulationData) (min_growth max_growth : Option ℚ),
      ((min_growth = none ∧ max_growth = none) ∨
        (∀ r ∈ data, r.growth_rate.isSome = true)) →
      filter_by_growth_rate data min_growth max_growth =
        .ok (data.filter (satisfiesBounds min_growth max_growth)) := by
  intro data min_growth max_growth
  induction data with
  | nil => intro _; simp [filter_by_growth_rate]
  | cons x xs ih =>
    intro h
    have hx : growth_filter min_growth max_growth x =
        .ok (satisfiesBounds min_growth max_growth x) := by
      rcases h with ⟨rfl, rfl⟩ | hall
      · rw [growth_filter_none_none, satisfiesBounds_none_none]
      · exact growth_filter_of_isSome _ _ _ (hall x (List.mem_cons_self x xs))
    have ih' := ih (by
      rcases h with h0 | hall
      · exact Or.inl h0
      · exact Or.inr fun r hr => hall r (List.mem_cons_of_mem x hr))
    cases hsb : satisfiesBounds min_growth max_growth x <;>
      simp [filter_by_growth_rate, hx, ih', List.filter_cons, hsb,
        Bind.bind, Except.bind, pure, Except.pure]

/-- Witness for C5's amended theorem at a concrete input: two records with
set growth rates, `min_growth = 5`, keeping exactly the record with growth
rate `10`. -/
theorem claim5_filter_amended_witness :
    filter_by_growth_rate
        [⟨"AAA", 2001, 110, some 10⟩, ⟨"BBB", 2002, 99, some 2⟩]
        (some 5) none =
      .ok ([⟨"AAA", 2001, 110, some 10⟩, ⟨"BBB", 2002, 99, some 2⟩].filter
        (satisfiesBounds (some 5) none)) :=
  claim5_filter_amended _ (some 5) none (Or.inr (by simp))

/-- C6, counterexample.  Exporting the empty record list does not produce
the header row: `pd.DataFrame([])` has no columns, so `to_csv` writes a
single blank line. -/
theorem claim6_export_counterexample :
    export_to_csv [] = [""] ∧
    ([""] : List String) ≠ ["country,year,population,growth_rate"] := by
  exact ⟨rfl, by simp⟩

/-- C6, amended.  Export always produces `N + 1` lines without error, and
for a non-empty record list the first line is the header with field order
`country, year, population, growth_rate` followed by one row per record;
for the empty list the single line is blank, not a header. -/
theorem claim6_export_amended :
    ∀ data : List PopulationData,
      (export_to_csv data).length = data.length + 1 ∧
      (data ≠ [] →
        export_to_csv data =
          "country,year,population,growth_rate" :: data.map csvRow) := by
  intro data
  constructor
  · simp [export_to_csv]
  · intro hne
    cases data with
    | nil => exact absurd rfl hne
    | cons x xs => simp [export_to_csv, csvHeaderColumns]; rfl

/-- Witness for C6's amended theorem at a concrete non-empty input. -/
theorem claim6_export_amended_witness :
    export_to_csv [⟨"AAA", 2000, 100, none⟩] =
      "country,year,population,growth_rate" ::
        [(⟨"AAA", 2000, 100, none⟩ : PopulationData)].map csvRow :=
  (claim6_export_amended [⟨"AAA", 2000, 100, none⟩]).2 (by simp)

/-- C9.  The admission check follows the fixed-window algorithm of the
spec: an elapsed time of at least `time_window` resets the window and
admits at once; an exhausted quota inside the window suspends for exactly
the remaining window time and then resets (the window restarting at the
wake-up instant); otherwise the call is admitted at once, and in every
case the count is incremented after admission.  Consequently, with
`rate_limit = 2` and `time_window = 1`, five back-to-back calls starting
at instant `0` sleep `[0, 0, 1, 0, 1]`: exactly the first two are admitted
immediately and the third suspends for the full remaining window time
(`1 - 0 = 1` second) before admission. -/
theorem claim9_rate_limiter :
    simulate 2 1 5 0 ⟨0, 0⟩ = [0, 0, 1, 0, 1] ∧
    (∀ (rate_limit : ℕ) (time_window now : ℚ) (st : LimiterState),
      (time_window ≤ now - st.last_request_time →
        rateLimitStep rate_limit time_window now st =
          (0, ⟨now, 1⟩)) ∧
      (now - st.last_request_time < time_window →
        rate_limit ≤ st.request_count →
        rateLimitStep rate_limit time_window now st =
          (time_window - (now - st.last_request_time),
            ⟨now + (time_window - (now - st.last_request_time)), 1⟩)) ∧
      (now - st.last_request_time < time_window →
        st.request_count < rate_limit →
        rateLimitStep rate_limit time_window now st =
          (0, ⟨st.last_request_time, st.request_count + 1⟩))) := by
  constructor
  · norm_num [simulate, rateLimitStep]
  · intro rate_limit time_window now st
    refine ⟨fun h1 => ?_, fun h1 h2 => ?_, fun h1 h2 => ?_⟩
    · simp [rateLimitStep, h1]
    · rw [rateLimitStep, if_neg (by linarith), if_pos h2]
    · rw [rateLimitStep, if_neg (by linarith), if_neg (by omega)]

/-- Witness for C9's general characterization, one concrete instance per
case: a stale window resets, an exhausted quota sleeps the remainder, and
a free slot is admitted immediately. -/
theorem claim9_rate_limiter_witness :
    rateLimitStep 2 1 5 ⟨0, 0⟩ = (0, ⟨5, 1⟩) ∧
    rateLimitStep 2 1 (1/2) ⟨0, 2⟩ = (1/2, ⟨1, 1⟩) ∧
    rateLimitStep 2 1 (1/2) ⟨0, 1⟩ = (0, ⟨0, 2⟩) :=
  ⟨(claim9_rate_limiter.2 2 1 5 ⟨0, 0⟩).1 (by norm_num),
   by
    have h := (claim9_rate_limiter.2 2 1 (1/2) ⟨0, 2⟩).2.1 (by norm_num) (by norm_num)
    rw [h]; norm_num,
   (claim9_rate_limiter.2 2 1 (1/2) ⟨0, 1⟩).2.2 (by norm_num) (by norm_num)⟩

/-- C7.  Every record yielded by the range fetcher has strictly positive
population: whatever each year's response and whatever completion order
the scheduler produces (any permutation of the year range), a yielded
record's population is a number `n` with `0 < n`, so the sentinel
(`population = 0`) and any negative population are filtered out before
yielding. -/
theorem claim7_range_positive :
    ∀ (country_code : String) (start_year end_year : Int)
      (resp : Int → Option (Nat × Json)) (sched : List Int → List Int)
      (r : ApiPopulationData),
      (sched (yearsRange start_year end_year)).Perm
        (yearsRange start_year end_year) →
      r ∈ get_country_population_range country_code start_year end_year
            resp sched →
      ∃ n : Int, r.population = Json.num n ∧ 0 < n := by
  intro code sy ey resp sched r _hperm hr
  exact rangeYields_positive _ r hr

/-- Witness for C7: fetching the single year 2020 with a well-formed
response of value `5` yields one record, whose population is the positive
number `5`. -/
theorem claim7_range_positive_witness :
    ∃ n : Int,
      (⟨"USA", 2020, Json.num 5, none⟩ : ApiPopulationData).population =
        Json.num n ∧ 0 < n :=
  claim7_range_positive "USA" 2020 2020
    (fun _ => some (200,
      Json.arr [Json.null, Json.arr [Json.obj [("value", Json.num 5)]]]))
    id ⟨"USA", 2020, Json.num 5, none⟩ (by decide) (List.Mem.head _)

/-- C8, counterexample.  A 200 response whose JSON body is a three-element
array (second observation without a `value` field) deviates from the
claim's expected shape — a two-element array whose element 1 is a
non-empty list of observation objects carrying a `value` field — yet the
fetch does not return the sentinel: the source only checks
`len(data) > 1` and reads `data[1][0]['value']`, so it parses the value
`5`. -/
theorem claim8_fetch_counterexample :
    (get_country_population "USA" 2020 (some (200,
        Json.arr [Json.null,
          Json.arr [Json.obj [("value", Json.num 5)], Json.obj []],
          Json.null]))).population = Json.num 5 ∧
    ¬ claimExpectedShape (some (200,
        Json.arr [Json.null,
          Json.arr [Json.obj [("value", Json.num 5)], Json.obj []],
          Json.null])) ∧
    Json.num 5 ≠ Json.num 0 := by
  refine ⟨rfl, ?_, by simp⟩
  rintro ⟨l, obs, heq, hlen, -⟩
  simp only [Option.some.injEq, Prod.mk.injEq, Json.arr.injEq] at heq
  obtain ⟨-, rfl⟩ := heq
  simp at hlen

/-- C8, amended.  A single fetch never raises (the embedding is a total
function) and always returns a record for the requested country and year;
whenever the response deviates from the shape the code accepts — a
200-status JSON array of at least two elements whose element at index 1
is a non-empty observation list whose first element carries a `value`
field — the returned record is the sentinel with `population = 0`. -/
theorem claim8_fetch_amended :
    ∀ (country_code : String) (year : Int) (resp : Option (Nat × Json)),
      (get_country_population country_code year resp).country =
        country_code ∧
      (get_country_population country_code year resp).year = year ∧
      (¬ expectedShape resp →
        (get_country_population country_code year resp).population =
          Json.num 0) := by
  intro code year resp
  rcases resp with _ | ⟨status, data⟩
  · exact ⟨rfl, rfl, fun _ => rfl⟩
  · by_cases hs : status = 200
    · subst hs
      rcases hx : tryExtractValue data with _ | v
      · refine ⟨?_, ?_, fun _ => ?_⟩ <;> simp [get_country_population, hx]
      · refine ⟨?_, ?_, fun hns => absurd ?_ hns⟩
        · simp [get_country_population, hx]
        · simp [get_country_population, hx]
        · obtain ⟨l, obs, fields, hdata, hlen, hg1, hg0, hfind⟩ :=
            tryExtractValue_shape data v hx
          exact ⟨l, obs, fields, by rw [hdata], hlen, hg1, hg0, hfind⟩
    · refine ⟨?_, ?_, fun _ => ?_⟩ <;> simp [get_country_population, hs]

/-- Witness for C8's amended theorem at a concrete failing fetch (network
error, `resp = none`): the sentinel record for the requested country and
year. -/
theorem claim8_fetch_amended_witness :
    (get_country_population "USA" 2020 none).country = "USA" ∧
    (get_country_population "USA" 2020 none).year = 2020 ∧
    (get_country_population "USA" 2020 none).population = Json.num 0 :=
  ⟨(claim8_fetch_amended "USA" 2020 none).1,
   (claim8_fetch_amended "USA" 2020 none).2.1,
   (claim8_fetch_amended "USA" 2020 none).2.2 (by
      rintro ⟨l, obs, fields, heq, -⟩
      cases heq)⟩

end WorldPop
